import Mathlib

/-!
# Verification of the scraping pipeline of ai-story-automation-tool

Shallow embedding, in Lean 4, of the parts of the repository that the
claims C1..C10 are about:

* `src/src/scraping/content_relevance.py` — `RelevanceScorer`
* `src/src/scraping/crawler_manager.py`  — `CrawlerManager.discover_stories`
* `src/src/scraping/spiders/substack_spider.py` — `SubstackSpider`
* `src/src/scraping/spiders/medium_spider.py`   — `MediumSpider`

Modelling conventions:
* Python `float` values (weights, scores, `0.5` threshold) are modelled as
  exact rationals `ℚ`; the claims under verification are structural
  (equalities with `0.0`, a strict `> 0.5` threshold, sort order) and do
  not depend on rounding.
* Python dicts holding story metadata are modelled as structures whose
  optional fields are `Option`-valued; the empty dict `{}` returned on
  failure is modelled as `Option.none` of the story type.
* Exceptions are modelled as `Except` values: code that catches an
  exception and converts it to an empty result is modelled by
  `exceptToEmpty`.
* HTML documents are not parsed here; a fetched page is modelled by the
  values that BeautifulSoup selector lookups of the source produce on it
  (title text, body paragraph texts, attribute values), each `Option`al.
-/

set_option maxRecDepth 8000

/-- The ASCII whitespace characters matched by Python's regex class `\s`
and by `str.split()` / `str.strip()` on the ASCII inputs that appear in
this development: space, tab, newline, carriage return, vertical tab and
form feed. -/
def isPyWs (c : Char) : Bool :=
  c = (' ') || c = ('\t') || c = ('\n') || c = ('\r') || c = ('\x0b') || c = ('\x0c')

/-- `re.sub(r"\s+", " ", text)` from `SubstackSpider._clean_text`
(substack_spider.py line 48): every maximal run of whitespace characters
is replaced by a single space. -/
def collapseWs : List Char → List Char
  | [] => []
  | [c] => if isPyWs c then [(' ')] else [c]
  | a :: b :: rest =>
    if isPyWs a then
      if isPyWs b then collapseWs (b :: rest)
      else (' ') :: collapseWs (b :: rest)
    else a :: collapseWs (b :: rest)

/-- Python `str.strip()`: drop leading and trailing whitespace. -/
def pyStrip (l : List Char) : List Char :=
  ((l.dropWhile isPyWs).reverse.dropWhile isPyWs).reverse

/-- The character class `[a-zA-Z]` of the entity regex in
`SubstackSpider._clean_text`. -/
def isAsciiAlpha (c : Char) : Bool :=
  ((('a') ≤ c && c ≤ ('z')) || (('A') ≤ c && c ≤ ('Z')))

/-- `re.sub(r"&[a-zA-Z]+;", " ", text)` from `SubstackSpider._clean_text`
(substack_spider.py line 51): each non-overlapping, left-to-right match of
an ampersand, one or more ASCII letters and a semicolon is replaced by a
single space.  Note the replacement is a space, and the code never
re-collapses whitespace afterwards.  Implemented as a single left-to-right
scan: `buf` holds a potential partial match (the ampersand and the letters
read so far, reversed); it is flushed unchanged when the match fails, and
replaced by one space when the closing semicolon arrives. -/
def repEntAux : List Char → List Char → List Char
  | [], buf => buf.reverse
  | c :: rest, buf =>
    if buf.isEmpty then
      if c = ('&') then repEntAux rest [c] else c :: repEntAux rest []
    else
      if isAsciiAlpha c then repEntAux rest (c :: buf)
      else if c = (';') && 2 ≤ buf.length then (' ') :: repEntAux rest []
      else if c = ('&') then buf.reverse ++ repEntAux rest [c]
      else buf.reverse ++ (c :: repEntAux rest [])

def replaceEntities (l : List Char) : List Char :=
  repEntAux l []

/-- `SubstackSpider._clean_text` (substack_spider.py lines 37-53): first
collapse whitespace runs to a single space and strip, then replace HTML
entity matches by a space. -/
def cleanText (s : String) : String :=
  String.mk (replaceEntities (pyStrip (collapseWs s.toList)))

/-- Helper for `pySplit`: accumulates the current word (reversed) while
scanning the character list. -/
def splitWsAux : List Char → List Char → List String
  | [], acc => if acc.isEmpty then [] else [String.mk acc.reverse]
  | c :: rest, acc =>
    if isPyWs c then
      if acc.isEmpty then splitWsAux rest []
      else String.mk acc.reverse :: splitWsAux rest []
    else splitWsAux rest (c :: acc)

/-- Python `str.split()` with no separator: split on runs of whitespace,
producing no empty tokens.  Used by `RelevanceScorer.score_story`
(`len(text.split())`) and by the spiders' `word_count`. -/
def pySplit (s : String) : List String :=
  splitWsAux s.toList []

/-- Python `" ".join(...)`. -/
def joinSp (l : List String) : String :=
  String.intercalate (" ") l

/-!
## `RelevanceScorer` (content_relevance.py)
-/

/-- The configuration of `RelevanceScorer.__init__`
(content_relevance.py lines 13-38), with its default values.  Weights are
Python floats, modelled as exact rationals. -/
structure RelevanceScorer where
  timelinessWeight : ℚ := 3/10
  depthWeight : ℚ := 3/10
  complexityWeight : ℚ := 1/5
  engagementWeight : ℚ := 1/5
  minWordCount : ℕ := 250
  maxAgeDays : ℕ := 30

/-- The four dimension scores computed by `_calculate_timeliness`,
`_calculate_depth`, `_calculate_complexity` and `_calculate_engagement`.
They are taken as inputs of `scoreStory` rather than recomputed, because
`_calculate_depth` uses a transcendental logarithm; the claims about
`score_story` quantify over their values, so nothing is lost. -/
structure SubScores where
  timeliness : ℚ
  depth : ℚ
  complexity : ℚ
  engagement : ℚ

/-- `max(0, min(total_score, 1))` from `score_story`
(content_relevance.py line 77). -/
def clamp01 (q : ℚ) : ℚ := max 0 (min q 1)

/-- `RelevanceScorer.score_story` (content_relevance.py lines 46-77):
`word_count = len(text.split())`; if it is below `min_word_count` the
result is `0.0`; otherwise the weighted sum of the four dimension scores,
clamped to `[0, 1]`. -/
def scoreStory (r : RelevanceScorer) (subs : SubScores) (text : String) : ℚ :=
  if (pySplit text).length < r.minWordCount then 0
  else clamp01 (subs.timeliness * r.timelinessWeight
    + subs.depth * r.depthWeight
    + subs.complexity * r.complexityWeight
    + subs.engagement * r.engagementWeight)

/-- `RelevanceScorer._calculate_timeliness` (content_relevance.py lines
79-104) as a function of the story's age.  `none` models the branch where
`published_at` is absent (the `if not published_at` check, and likewise
the caught parse failure), which returns `0.5`.  For a parsed date the
code computes `age_days` (an integer, negative for future dates), returns
`0.0` when it exceeds `max_age_days`, and `1 - (age_days/max_age_days)**2`
otherwise. -/
def calcTimeliness (maxAgeDays : ℕ) (ageDays : Option ℤ) : ℚ :=
  match ageDays with
  | none => 1/2
  | some a => if (maxAgeDays : ℤ) < a then 0
      else 1 - ((a : ℚ) / (maxAgeDays : ℚ))^2

/-!
## `CrawlerManager.discover_stories` (crawler_manager.py)

The manager treats every fetch-then-extract unit as a black box (it calls
`spider.fetch_content` then `spider.extract_story`, both of which touch
the network or raw HTML).  A unit's outcome is therefore modelled by an
oracle `String → SpiderKind → UnitResult`: an `Except.error` is an
exception collected by `asyncio.gather(..., return_exceptions=True)`,
`Except.ok none` is the empty dict `{}` that `_extract_story` returns
after catching a failure (or after an empty fetch), and
`Except.ok (some s)` is a successfully extracted story.  Scoring is
likewise a parameter `Story → Except String ℚ` because the manager wraps
`score_story` in its own try/except.
-/

/-- The story dict flowing through `CrawlerManager.discover_stories`.
Only the keys the manager reads or writes are modelled; `relevanceScore`
is `none` while the `relevance_score` key is absent. -/
structure Story where
  text : String := ""
  publishedAt : Option String := none
  urlField : Option String := none
  relevanceScore : Option ℚ := none
deriving DecidableEq

/-- First element of `test_stories` in `discover_stories`
(crawler_manager.py lines 49-53). -/
def testStory0 : Story :=
  { text := "An innovative breakthrough in technological research",
    publishedAt := some ("2025-01-15T00:00:00Z") }

/-- Second element of `test_stories` in `discover_stories`
(crawler_manager.py lines 54-57). -/
def testStory1 : Story :=
  { text := "A simple story with few details",
    publishedAt := some ("2024-01-01T00:00:00Z") }

/-- Does the needle occur as a contiguous sublist at the head of the
haystack? -/
def startsWithL : List Char → List Char → Bool
  | _, [] => true
  | [], _ :: _ => false
  | a :: as, b :: bs => a = b && startsWithL as bs

/-- Helper for `strContains`: does the needle occur anywhere? -/
def hasSub : List Char → List Char → Bool
  | [], needle => needle.isEmpty
  | h :: t, needle => startsWithL (h :: t) needle || hasSub t needle

/-- Python's substring test `needle in hay` used by the
`'success' in str(url)` checks of `discover_stories`. -/
def strContains (hay needle : String) : Bool :=
  hasSub hay.toList needle.toList

/-- Python list slicing `l[:n]`: for a non-negative bound take the first
`n` elements, for a negative bound drop the last `-n`. -/
def pyTake (n : ℤ) (l : List α) : List α :=
  if 0 ≤ n then l.take n.toNat else l.take ((l.length : ℤ) + n).toNat

/-- The guard of the fixture branch of `discover_stories`
(crawler_manager.py lines 48-67): exactly two urls, one of which contains
one of the three test markers. -/
def mockHit (urls : List String) : Bool :=
  urls.length = 2 &&
    (urls.any (fun u => strContains u ("success"))
     || urls.any (fun u => strContains u ("error_handling"))
     || urls.any (fun u => strContains u ("max_stories")))

/-- The value returned by the fixture branch of `discover_stories`
(crawler_manager.py lines 60-67), given that `mockHit` holds: the checks
are tried in the order success, error_handling, max_stories. -/
def mockResult (urls : List String) (maxStories : ℤ) : List Story :=
  if urls.any (fun u => strContains u ("success")) then [testStory0]
  else if urls.any (fun u => strContains u ("error_handling")) then [testStory1]
  else pyTake maxStories [testStory0, testStory1]

/-- The registered spider classes (`CrawlerManager._spider_classes`,
crawler_manager.py lines 30-33). -/
inductive SpiderKind
  | medium
  | substack
deriving DecidableEq

def spiderClasses : List SpiderKind := [.medium, .substack]

/-- The spider factories
`self.spiders = [lambda cfg: cls(cfg) for cls in self._spider_classes]`
(crawler_manager.py lines 35-37), evaluated at call time.  In Python the
lambdas all close over the single comprehension variable `cls`, which
holds the *last* element of `_spider_classes` once the comprehension has
finished; every factory call made afterwards (all of them are) therefore
instantiates the last registered class.  This list records, slot by slot,
the class each factory actually instantiates. -/
def spiderFactoryResults : List SpiderKind :=
  spiderClasses.map (fun _ => spiderClasses.getLastD .medium)

/-- The fetch-then-extract units created by the task loop of
`discover_stories` (crawler_manager.py lines 72-81): one per URL and
factory, in url-major order, tagged with the spider class the factory
instantiates. -/
def fanout (urls : List String) : List (String × SpiderKind) :=
  urls.flatMap (fun u => spiderFactoryResults.map (fun k => (u, k)))

/-- The units of work actually scheduled by a `discover_stories` call:
none on the fixture branch (it returns before the task loop), the full
fan-out otherwise.  (For an empty `urls` list the fan-out is itself
empty.) -/
def scheduledTasks (urls : List String) : List (String × SpiderKind) :=
  if mockHit urls then [] else fanout urls

/-- Outcome of one fetch-then-extract unit, as observed through
`asyncio.gather(..., return_exceptions=True)`. -/
abbrev UnitRes := Except String (Option Story)

/-- The list `story_results` of `discover_stories` (crawler_manager.py
line 83): each unit's outcome with `story['url'] = url` applied by
`_extract_story` (line 127) on success. -/
def unitResults (o : String → SpiderKind → UnitRes) (urls : List String) :
    List UnitRes :=
  (fanout urls).map (fun t =>
    (o t.1 t.2).map (Option.map (fun s => { s with urlField := some t.1 })))

/-- The filter-and-score loop of `discover_stories` (crawler_manager.py
lines 86-102): exceptions and empty dicts are skipped; otherwise the
story is scored, the score attached under `relevance_score`, and the
story kept exactly when the score is strictly greater than `0.5`; a
scoring exception skips the story. -/
def processResults (sc : Story → Except String ℚ) : List UnitRes → List Story
  | [] => []
  | Except.error _ :: rest => processResults sc rest
  | Except.ok none :: rest => processResults sc rest
  | Except.ok (some s) :: rest =>
    match sc s with
    | Except.error _ => processResults sc rest
    | Except.ok q =>
      if 1/2 < q then { s with relevanceScore := some q } :: processResults sc rest
      else processResults sc rest

/-- The sort key `s.get('relevance_score', 0)` (crawler_manager.py
line 106). -/
def scoreKey (s : Story) : ℚ := s.relevanceScore.getD 0

/-- One step of a stable descending insertion sort: `x` passes over the
elements whose key is strictly greater than its own and lands in front of
the first element whose key is less than or equal, so equal-key elements
keep their relative order. -/
def pyInsertDesc (key : α → ℚ) (x : α) : List α → List α
  | [] => [x]
  | y :: ys => if key x < key y then y :: pyInsertDesc key x ys else x :: y :: ys

/-- `valid_stories.sort(key=lambda s: s.get('relevance_score', 0),
reverse=True)` (crawler_manager.py lines 105-108).  CPython's sort is
stable also with `reverse=True`: ties keep their original order; this
insertion sort has exactly that specification. -/
def pySortDesc (key : α → ℚ) : List α → List α
  | [] => []
  | x :: xs => pyInsertDesc key x (pySortDesc key xs)

/-- The stories the scoring loop keeps, in discovery order. -/
def validStories (sc : Story → Except String ℚ)
    (o : String → SpiderKind → UnitRes) (urls : List String) : List Story :=
  processResults sc (unitResults o urls)

/-- `CrawlerManager.discover_stories` (crawler_manager.py lines 39-110):
fixture branch first, then the empty-urls early return, then the
fan-out / gather / score / filter / sort / truncate pipeline. -/
def discoverStories (sc : Story → Except String ℚ)
    (o : String → SpiderKind → UnitRes) (urls : List String)
    (maxStories : ℤ) : List Story :=
  if mockHit urls then mockResult urls maxStories
  else if urls.isEmpty then []
  else pyTake maxStories (pySortDesc scoreKey (validStories sc o urls))

/-- Has a fetch-then-extract unit failed, in the sense of the claims: its
outcome is either an exception or the empty dict `{}`? -/
def unitFailed : UnitRes → Bool
  | Except.error _ => true
  | Except.ok none => true
  | Except.ok (some _) => false

/-- Has a scoring call raised? -/
def scoreFailed (r : Except String ℚ) : Bool :=
  match r with
  | Except.error _ => true
  | Except.ok _ => false

/-!
## The spiders (medium_spider.py, substack_spider.py)
-/

/-- A caught exception converted to the empty-dict result: the
`except Exception: return {}` wrapper both extractors put around their
body. -/
def exceptToEmpty : Except String α → Option α
  | Except.error _ => none
  | Except.ok a => some a

/-- A fetched Substack page as observed through the BeautifulSoup lookups
of `SubstackSpider.extract_story`:
* `url` — `content.get('url', '')`;
* `titleText` — the stripped text of `h1.post-title`, when present;
* `bodyParagraphs` — the `get_text(strip=True)` values of the `p`/`div`
  elements with class `paragraph`/`block` inside the body container
  (`div.body`/`div.markup`, falling back to `article`); `none` when no
  body container exists at all;
* `authorContent` — the `content` attribute of `meta[name=author]`;
* `timeDatetime` — the (truthy) `datetime` attribute of the first `time`
  element, when present. -/
structure SubstackDoc where
  url : String := ""
  titleText : Option String := none
  bodyParagraphs : Option (List String) := none
  authorContent : Option String := none
  timeDatetime : Option String := none

/-- The dict returned by a successful `SubstackSpider.extract_story`
(substack_spider.py lines 106-115). -/
structure SubstackStory where
  url : String
  title : String
  text : String
  author : String
  publishedAt : Option String
  platform : String
  wordCount : ℕ
  readingTimeMinutes : ℕ
deriving DecidableEq

/-- The try-block of `SubstackSpider.extract_story` (substack_spider.py
lines 68-115).  When neither a body container nor an `article` element
exists, `article_body` is `None` and `article_body.find_all(...)` raises
`AttributeError` (the error case).  Otherwise the story text joins the
cleaned non-empty paragraph texts; `published_at` is the parse of the
`datetime` attribute (`parseIso`, abstracting
`datetime.fromisoformat(..).isoformat()`, `none` on `ValueError`), left
`None` when absent or unparseable; `word_count` splits the story text on
whitespace and `reading_time_minutes = max(1, word_count // 250)` with
Python floor division. -/
def substackExtractCore (parseIso : String → Option String)
    (d : SubstackDoc) : Except String SubstackStory :=
  match d.bodyParagraphs with
  | none => Except.error ("AttributeError: NoneType object has no attribute find_all")
  | some ps =>
    let t := joinSp ((ps.filter (fun q => q ≠ "")).map cleanText)
    Except.ok
      { url := d.url,
        title := d.titleText.getD ("Untitled"),
        text := t,
        author := d.authorContent.getD ("Unknown Author"),
        publishedAt := d.timeDatetime.bind parseIso,
        platform := "Substack",
        wordCount := (pySplit t).length,
        readingTimeMinutes := max 1 ((pySplit t).length / 250) }

/-- `SubstackSpider.extract_story` (substack_spider.py lines 55-119):
the empty/`'content'`-less input returns `{}` before the try-block
(`none` input); any exception inside the try-block is caught and also
yields `{}`. -/
def substackExtract (parseIso : String → Option String)
    (input : Option SubstackDoc) : Option SubstackStory :=
  match input with
  | none => none
  | some d => exceptToEmpty (substackExtractCore parseIso d)

/-- A fetched Medium page as observed through the BeautifulSoup lookups
of `MediumSpider.extract_story`: stripped text of `h1.pw-title`, the
stripped `p` texts inside `div.pw-post-body` (`none` when that container
is missing), and the relevant `meta` attribute values. -/
structure MediumDoc where
  url : String := ""
  titleText : Option String := none
  bodyParagraphs : Option (List String) := none
  authorContent : Option String := none
  publishedTimeContent : Option String := none

/-- The dict returned by a successful `MediumSpider.extract_story`
(medium_spider.py lines 64-71). -/
structure MediumStory where
  url : String
  title : String
  text : String
  author : String
  publishedAt : Option String
  platform : String
deriving DecidableEq

/-- The try-block of `MediumSpider.extract_story` (medium_spider.py lines
43-71).  A missing body container gives `paragraphs = []` (the
`if article_body else []` guard), so no lookup ever raises: the block
always produces a dict, with `'Untitled'`, `'Unknown'` and `None`
defaults for missing pieces. -/
def mediumExtractCore (d : MediumDoc) : Except String MediumStory :=
  Except.ok
    { url := d.url,
      title := d.titleText.getD ("Untitled"),
      text := joinSp (d.bodyParagraphs.getD []),
      author := d.authorContent.getD ("Unknown"),
      publishedAt := d.publishedTimeContent,
      platform := "Medium" }

/-- `MediumSpider.extract_story` (medium_spider.py lines 30-75): empty
input returns `{}`; exceptions inside the try-block would be caught and
converted to `{}`. -/
def mediumExtract (input : Option MediumDoc) : Option MediumStory :=
  match input with
  | none => none
  | some d => exceptToEmpty (mediumExtractCore d)

/-- A parse oracle under which no timestamp string is parseable
(every `datetime.fromisoformat` call raises `ValueError`). -/
def noParse : String → Option String := fun _ => none

/-!
## Concrete inputs used to instantiate the theorems
-/

/-- A scorer that always succeeds with score `0`. -/
def scOkZero : Story → Except String ℚ := fun _ => Except.ok 0

/-- A unit oracle under which every fetch-then-extract unit raises. -/
def oracleFail : String → SpiderKind → UnitRes :=
  fun _ _ => Except.error ("boom")

/-- A unit oracle that extracts, from every unit, a story whose text is
the unit's URL. -/
def oracleEcho : String → SpiderKind → UnitRes :=
  fun u _ => Except.ok (some { text := u })

/-- A scorer giving distinct fixed scores to the three `urlsThree`
stories. -/
def scByUrl : Story → Except String ℚ := fun s =>
  Except.ok (if s.text = "https://a.example/2" then 9/10
    else if s.text = "https://a.example/1" then 3/5 else 1/5)

def urlsThree : List String :=
  ["https://a.example/1", "https://a.example/2", "https://a.example/3"]

def urlsSuccess : List String :=
  ["https://example.com/success-story", "https://example.com/other"]

/-- `n` one-letter words separated by single spaces. -/
def wordsText (n : ℕ) : String := joinSp (List.replicate n ("a"))

/-- A Substack page whose body yields exactly 300 words. -/
def doc300 : SubstackDoc := { bodyParagraphs := some [wordsText 300] }

/-- A Substack page whose `time` element carries a `datetime` attribute
that no parser accepts. -/
def badTimeDoc : SubstackDoc :=
  { bodyParagraphs := some ["Some body text"],
    timeDatetime := some ("not-a-timestamp") }

/-!
## Helper lemmas
-/

theorem mem_pyInsertDesc {key : α → ℚ} {x a : α} :
    ∀ {l : List α}, a ∈ pyInsertDesc key x l ↔ a = x ∨ a ∈ l := by
  intro l
  induction l with
  | nil => simp [pyInsertDesc]
  | cons y ys ih =>
    simp only [pyInsertDesc]
    split
    · simp only [List.mem_cons, ih]
      tauto
    · simp only [List.mem_cons]

theorem pairwise_pyInsertDesc {key : α → ℚ} {x : α} {l : List α}
    (h : l.Pairwise (fun a b => key b ≤ key a)) :
    (pyInsertDesc key x l).Pairwise (fun a b => key b ≤ key a) := by
  induction l with
  | nil => simp [pyInsertDesc]
  | cons y ys ih =>
    rcases List.pairwise_cons.mp h with ⟨hy, hys⟩
    simp only [pyInsertDesc]
    split
    · rename_i hlt
      refine List.pairwise_cons.mpr ⟨?_, ih hys⟩
      intro b hb
      rcases mem_pyInsertDesc.mp hb with rfl | hb
      · exact le_of_lt hlt
      · exact hy b hb
    · rename_i hnlt
      refine List.pairwise_cons.mpr ⟨?_, h⟩
      intro b hb
      rcases List.mem_cons.mp hb with rfl | hb
      · exact le_of_not_lt hnlt
      · exact le_trans (hy b hb) (le_of_not_lt hnlt)

theorem pairwise_pySortDesc {key : α → ℚ} :
    ∀ l : List α, (pySortDesc key l).Pairwise (fun a b => key b ≤ key a) := by
  intro l
  induction l with
  | nil => simp [pySortDesc]
  | cons x xs ih => exact pairwise_pyInsertDesc ih

theorem mem_pySortDesc {key : α → ℚ} {a : α} :
    ∀ {l : List α}, a ∈ pySortDesc key l ↔ a ∈ l := by
  intro l
  induction l with
  | nil => simp [pySortDesc]
  | cons x xs ih =>
    simp only [pySortDesc, mem_pyInsertDesc, ih, List.mem_cons]

theorem filter_pyInsertDesc {key : α → ℚ} {x : α} {q : ℚ} :
    ∀ l : List α,
      (pyInsertDesc key x l).filter (fun s => decide (key s = q))
        = if key x = q then x :: l.filter (fun s => decide (key s = q))
          else l.filter (fun s => decide (key s = q)) := by
  intro l
  induction l with
  | nil =>
    by_cases hq : key x = q
    · simp [pyInsertDesc, List.filter_cons, hq]
    · simp [pyInsertDesc, List.filter_cons, hq]
  | cons y ys ih =>
    simp only [pyInsertDesc]
    split
    · rename_i hlt
      by_cases hq : key x = q
      · have hyq : ¬ (key y = q) := by
          intro hy
          rw [hq] at hlt
          rw [hy] at hlt
          exact lt_irrefl q hlt
        simp only [List.filter_cons, hq, if_pos, ih]
        simp [hyq, hq]
      · simp only [List.filter_cons, ih]
        simp [hq]
    · by_cases hq : key x = q
      · simp [List.filter_cons, hq]
      · simp [List.filter_cons, hq]

theorem filter_pySortDesc {key : α → ℚ} {q : ℚ} :
    ∀ l : List α,
      (pySortDesc key l).filter (fun s => decide (key s = q))
        = l.filter (fun s => decide (key s = q)) := by
  intro l
  induction l with
  | nil => simp [pySortDesc]
  | cons x xs ih =>
    simp only [pySortDesc, filter_pyInsertDesc, ih, List.filter_cons]
    split <;> rename_i h
    · simp [h]
    · simp [h]

theorem filter_take_eq_take_filter (p : α → Bool) :
    ∀ (n : ℕ) (l : List α), ∃ m, (l.take n).filter p = (l.filter p).take m := by
  intro n l
  induction l generalizing n with
  | nil => exact ⟨0, by simp⟩
  | cons x xs ih =>
    cases n with
    | zero => exact ⟨0, by simp⟩
    | succ k =>
      rcases ih k with ⟨m, hm⟩
      by_cases hx : p x
      · exact ⟨m + 1, by simp [List.filter_cons, hx, hm]⟩
      · exact ⟨m, by simp [List.filter_cons, hx, hm]⟩

theorem processResults_mem {sc : Story → Except String ℚ} {s : Story} :
    ∀ {rs : List UnitRes}, s ∈ processResults sc rs →
      ∃ q, s.relevanceScore = some q ∧ 1/2 < q := by
  intro rs
  induction rs with
  | nil => simp [processResults]
  | cons r rest ih =>
    match r with
    | Except.error e => exact fun h => ih h
    | Except.ok none => exact fun h => ih h
    | Except.ok (some st) =>
      simp only [processResults]
      match hsc : sc st with
      | Except.error e => exact fun h => ih h
      | Except.ok q =>
        by_cases hq : 1/2 < q
        · simp only [if_pos hq, List.mem_cons]
          rintro (rfl | h)
          · exact ⟨q, rfl, hq⟩
          · exact ih h
        · simp only [if_neg hq]
          exact fun h => ih h

theorem processResults_all_failed {sc : Story → Except String ℚ} :
    ∀ {rs : List UnitRes}, (∀ r ∈ rs, unitFailed r = true) →
      processResults sc rs = [] := by
  intro rs
  induction rs with
  | nil => intro _; rfl
  | cons r rest ih =>
    intro h
    match r with
    | Except.error e => exact ih (fun r hr => h r (List.mem_cons_of_mem _ hr))
    | Except.ok none => exact ih (fun r hr => h r (List.mem_cons_of_mem _ hr))
    | Except.ok (some st) =>
      have := h (Except.ok (some st)) (List.mem_cons_self _ _)
      simp [unitFailed] at this

theorem processResults_score_failed {sc : Story → Except String ℚ}
    (hsc : ∀ st, scoreFailed (sc st) = true) :
    ∀ rs : List UnitRes, processResults sc rs = [] := by
  intro rs
  induction rs with
  | nil => rfl
  | cons r rest ih =>
    match r with
    | Except.error e => exact ih
    | Except.ok none => exact ih
    | Except.ok (some st) =>
      simp only [processResults]
      match hr : sc st with
      | Except.error e => exact ih
      | Except.ok q =>
        have := hsc st
        rw [hr] at this
        simp [scoreFailed] at this

theorem unitFailed_map (r : UnitRes) (f : Story → Story) :
    unitFailed (r.map (Option.map f)) = unitFailed r := by
  match r with
  | Except.error e => rfl
  | Except.ok none => rfl
  | Except.ok (some s) => rfl

theorem pyTake_nil (n : ℤ) : pyTake n ([] : List α) = [] := by
  simp [pyTake]

theorem pyTake_sublist (n : ℤ) (l : List α) : (pyTake n l).Sublist l := by
  unfold pyTake
  split <;> exact List.take_sublist _ _

theorem length_pyTake_le {n : ℤ} (hn : 0 ≤ n) (l : List α) :
    ((pyTake n l).length : ℤ) ≤ n := by
  unfold pyTake
  rw [if_pos hn]
  have h : (l.take n.toNat).length ≤ n.toNat := by
    simp [List.length_take]
  calc ((l.take n.toNat).length : ℤ) ≤ (n.toNat : ℤ) := by exact_mod_cast h
    _ = n := Int.toNat_of_nonneg hn

theorem pyTake_of_nonneg {n : ℤ} (hn : 0 ≤ n) (l : List α) :
    pyTake n l = l.take n.toNat := by
  unfold pyTake
  rw [if_pos hn]

/-!
## The claims
-/

/-- Claim C1: for every story whose body text has a whitespace-split word
count strictly below `min_word_count` (default 250),
`RelevanceScorer.score_story` returns exactly `0.0`, regardless of the
values of the timeliness, depth, complexity and engagement sub-scores.
Stated for every scorer configuration, hence in particular for the
default one with `minWordCount = 250`. -/
theorem C1_short_story_scores_zero (r : RelevanceScorer) (subs : SubScores)
    (text : String) (h : (pySplit text).length < r.minWordCount) :
    scoreStory r subs text = 0 := by
  simp [scoreStory, h]

theorem C1_short_story_scores_zero_witness :
    (pySplit ("Few words here.")).length
        < RelevanceScorer.minWordCount {} ∧
    scoreStory {}
      { timeliness := 2, depth := -5, complexity := 7, engagement := 9 }
      ("Few words here.") = 0 :=
  ⟨by decide, C1_short_story_scores_zero _ _ _ (by decide)⟩

/-- Claim C4 (code bug): `discover_stories` schedules `N × M` units, but
every unit is executed by an instance of the *last* registered extractor
class (`SubstackSpider`), not by its own pair's class: the factory
lambdas of `CrawlerManager.__init__` all close over the single
comprehension variable `cls`.  Evaluated at one URL with the default
registry of two classes: both scheduled units carry `substack`, and no
unit carries `medium` even though `medium` is registered. -/
theorem C4_every_unit_runs_last_spider :
    (scheduledTasks ["https://medium.com/story"]).length
        = 1 * spiderClasses.length ∧
    scheduledTasks ["https://medium.com/story"]
      = [("https://medium.com/story", SpiderKind.substack),
         ("https://medium.com/story", SpiderKind.substack)] ∧
    ("https://medium.com/story", SpiderKind.medium)
        ∉ scheduledTasks ["https://medium.com/story"] ∧
    SpiderKind.medium ∈ spiderClasses := by
  refine ⟨rfl, rfl, by decide, by decide⟩

/-- Claim C5: the timeliness sub-score is `0.5` when `published_at` is
absent, equals `1.0` at age `0`, is monotonically non-increasing in age
on `[0, max_age_days]`, and is exactly `0.0` for every age strictly
greater than `max_age_days`.  Stated for every positive `max_age_days`,
hence in particular for the default `30`. -/
theorem C5_timeliness_shape (m : ℕ) (hm : 0 < m) :
    calcTimeliness m none = 1/2 ∧
    calcTimeliness m (some 0) = 1 ∧
    (∀ a b : ℤ, 0 ≤ a → a ≤ b → b ≤ (m : ℤ) →
      calcTimeliness m (some b) ≤ calcTimeliness m (some a)) ∧
    (∀ a : ℤ, (m : ℤ) < a → calcTimeliness m (some a) = 0) := by
  refine ⟨rfl, ?_, ?_, ?_⟩
  · have h0 : ¬ ((m : ℤ) < 0) := by omega
    simp [calcTimeliness, h0]
  · intro a b ha hab hbm
    have hm' : (0 : ℚ) < (m : ℚ) := by exact_mod_cast hm
    have h1 : ¬ ((m : ℤ) < a) := by omega
    have h2 : ¬ ((m : ℤ) < b) := by omega
    simp only [calcTimeliness, if_neg h1, if_neg h2]
    have ha' : (0 : ℚ) ≤ (a : ℚ) := by exact_mod_cast ha
    have hab' : (a : ℚ) ≤ (b : ℚ) := by exact_mod_cast hab
    have key : ((a : ℚ) / (m : ℚ))^2 ≤ ((b : ℚ) / (m : ℚ))^2 := by
      apply pow_le_pow_left₀ (div_nonneg ha' hm'.le)
      exact (div_le_div_iff_of_pos_right hm').mpr hab'
    linarith
  · intro a ha
    simp [calcTimeliness, ha]

theorem C5_timeliness_shape_witness :
    0 < 30 ∧ calcTimeliness 30 none = 1/2 ∧
    calcTimeliness 30 (some 10) ≤ calcTimeliness 30 (some 3) ∧
    calcTimeliness 30 (some 45) = 0 :=
  ⟨by decide, (C5_timeliness_shape 30 (by decide)).1,
   (C5_timeliness_shape 30 (by decide)).2.2.1 3 10 (by decide) (by decide)
     (by decide),
   (C5_timeliness_shape 30 (by decide)).2.2.2 45 (by decide)⟩

/-- Claim C9 (code bug): `_clean_text` collapses whitespace runs and
trims, as claimed — `_clean_text("  Hello   World  ") = "Hello World"` —
but on `"Text with &nbsp; HTML entity"` it returns
`"Text with   HTML entity"` (the entity is replaced by a space *after*
whitespace collapsing, which is never redone), not the
`"Text with HTML entity"` that the claim and the repository's own test
`test_substack_text_cleaning` state. -/
theorem C9_clean_text_evaluated :
    cleanText ("  Hello   World  ") = "Hello World" ∧
    cleanText ("Multiple   \n\t  Whitespaces") = "Multiple Whitespaces" ∧
    cleanText ("Text with &nbsp; HTML entity") = "Text with   HTML entity" ∧
    cleanText ("Text with &nbsp; HTML entity") ≠ "Text with HTML entity" := by
  refine ⟨by decide, by decide, by decide, by decide⟩

/-- Claim C6: whenever `urls` has exactly two elements and some element
contains one of the markers `success`, `error_handling` or `max_stories`,
`discover_stories` answers from the two hard-coded fixture stories — the
`breakthrough` story for `success`, the `simple story` for
`error_handling` (when no `success` marker is present), the fixture list
sliced to `max_stories` for `max_stories` (when neither earlier marker is
present; the checks are tried in that order) — independently of the
scorer and of every fetch-then-extract outcome, with no unit of work
scheduled. -/
theorem C6_fixture_branch (sc : Story → Except String ℚ)
    (o : String → SpiderKind → UnitRes) (urls : List String) (ms : ℤ)
    (hlen : urls.length = 2) :
    (urls.any (fun u => strContains u ("success")) = true →
      discoverStories sc o urls ms = [testStory0]
        ∧ scheduledTasks urls = []) ∧
    (urls.any (fun u => strContains u ("success")) = false →
     urls.any (fun u => strContains u ("error_handling")) = true →
      discoverStories sc o urls ms = [testStory1]
        ∧ scheduledTasks urls = []) ∧
    (urls.any (fun u => strContains u ("success")) = false →
     urls.any (fun u => strContains u ("error_handling")) = false →
     urls.any (fun u => strContains u ("max_stories")) = true →
      discoverStories sc o urls ms = pyTake ms [testStory0, testStory1]
        ∧ scheduledTasks urls = []) := by
  refine ⟨?_, ?_, ?_⟩
  · intro hs
    have hm : mockHit urls = true := by simp [mockHit, hlen, hs]
    exact ⟨by simp [discoverStories, hm, mockResult, hs],
           by simp [scheduledTasks, hm]⟩
  · intro hs he
    have hm : mockHit urls = true := by simp [mockHit, hlen, he]
    exact ⟨by simp [discoverStories, hm, mockResult, hs, he],
           by simp [scheduledTasks, hm]⟩
  · intro hs he hx
    have hm : mockHit urls = true := by simp [mockHit, hlen, hx]
    exact ⟨by simp [discoverStories, hm, mockResult, hs, he],
           by simp [scheduledTasks, hm]⟩

theorem C6_fixture_branch_witness :
    urlsSuccess.length = 2 ∧
    urlsSuccess.any (fun u => strContains u ("success")) = true ∧
    discoverStories scOkZero oracleFail urlsSuccess 10 = [testStory0] ∧
    scheduledTasks urlsSuccess = [] := by
  have h := (C6_fixture_branch scOkZero oracleFail urlsSuccess 10
    (by decide)).1 (by decide)
  exact ⟨by decide, by decide, h.1, h.2⟩

/-- Claim C3: `discover_stories([], n)` returns the empty list for every
`n`, with no unit of work scheduled; and a batch in which every scheduled
fetch-then-extract unit fails — raises, or yields the empty dict — or in
which every scoring call raises, returns the empty list (the embedding is
a total function, so per-unit failures never escape as exceptions). -/
theorem C3_failure_semantics :
    (∀ (sc : Story → Except String ℚ) (o : String → SpiderKind → UnitRes)
       (ms : ℤ), discoverStories sc o [] ms = []) ∧
    scheduledTasks [] = [] ∧
    (∀ (sc : Story → Except String ℚ) (o : String → SpiderKind → UnitRes)
       (urls : List String) (ms : ℤ), scheduledTasks urls ≠ [] →
       (∀ u k, unitFailed (o u k) = true) →
       discoverStories sc o urls ms = []) ∧
    (∀ (sc : Story → Except String ℚ) (o : String → SpiderKind → UnitRes)
       (urls : List String) (ms : ℤ), scheduledTasks urls ≠ [] →
       (∀ st, scoreFailed (sc st) = true) →
       discoverStories sc o urls ms = []) := by
  have hmock : ∀ urls : List String, scheduledTasks urls ≠ [] →
      mockHit urls = false ∧ urls ≠ [] := by
    intro urls h
    by_cases hm : mockHit urls
    · simp [scheduledTasks, hm] at h
    · refine ⟨by simp [hm], ?_⟩
      rintro rfl
      simp [scheduledTasks, hm, fanout] at h
  refine ⟨?_, rfl, ?_, ?_⟩
  · intro sc o ms
    simp [discoverStories, mockHit]
  · intro sc o urls ms htasks hfail
    rcases hmock urls htasks with ⟨hm, hne⟩
    have hval : validStories sc o urls = [] := by
      apply processResults_all_failed
      intro r hr
      rcases List.mem_map.mp hr with ⟨t, _, rfl⟩
      rw [unitFailed_map]
      exact hfail t.1 t.2
    simp [discoverStories, hm, hne, hval, pySortDesc, pyTake_nil]
  · intro sc o urls ms htasks hfail
    rcases hmock urls htasks with ⟨hm, hne⟩
    have hval : validStories sc o urls = [] :=
      processResults_score_failed hfail _
    simp [discoverStories, hm, hne, hval, pySortDesc, pyTake_nil]

theorem C3_failure_semantics_witness :
    scheduledTasks ["https://a.example/1"] ≠ [] ∧
    discoverStories scOkZero oracleFail ["https://a.example/1"] 5 = [] ∧
    discoverStories scOkZero oracleFail [] (-3) = [] :=
  ⟨by decide,
   C3_failure_semantics.2.2.1 scOkZero oracleFail _ 5 (by decide)
     (fun _ _ => rfl),
   C3_failure_semantics.1 scOkZero oracleFail (-3)⟩

/-- Claim C2 counterexample: on the fixture branch the claim fails —
`discover_stories(['https://x.example/success', 'https://x.example/b'],
max_stories = 0)` returns one story, so the result is not truncated to at
most `max_stories` elements (and the returned story carries no attached
relevance score at all). -/
theorem C2_counterexample :
    ¬ ((discoverStories scOkZero oracleFail
        ["https://x.example/success", "https://x.example/b"] 0).length ≤ 0)
    ∧ (discoverStories scOkZero oracleFail
        ["https://x.example/success", "https://x.example/b"] 0).all
        (fun s => s.relevanceScore = none) := by
  refine ⟨by decide, by decide⟩

/-- Claim C2 as amended: for every call that does not hit the hard-coded
fixture branch, and for `max_stories ≥ 0`, `discover_stories` keeps only
stories whose attached relevance score is strictly greater than `0.5`,
returns them sorted descending by score, with ties kept in original
discovery order (for each score value, the returned stories of that score
are an initial segment of the kept stories of that score in discovery
order), and truncates the result to at most `max_stories` elements. -/
theorem C2_pipeline_amended (sc : Story → Except String ℚ)
    (o : String → SpiderKind → UnitRes) (urls : List String) (ms : ℤ)
    (hmock : mockHit urls = false) (hms : 0 ≤ ms) :
    (∀ s ∈ discoverStories sc o urls ms,
      ∃ q, s.relevanceScore = some q ∧ 1/2 < q) ∧
    (discoverStories sc o urls ms).Pairwise
      (fun a b => scoreKey b ≤ scoreKey a) ∧
    ((discoverStories sc o urls ms).length : ℤ) ≤ ms ∧
    (∀ q : ℚ, ∃ m,
      (discoverStories sc o urls ms).filter (fun s => decide (scoreKey s = q))
        = ((validStories sc o urls).filter
            (fun s => decide (scoreKey s = q))).take m) := by
  by_cases hne : urls.isEmpty
  · have hd : discoverStories sc o urls ms = [] := by
      simp [discoverStories, hmock, hne]
    rw [hd]
    refine ⟨by simp, by simp, by simpa using hms, ?_⟩
    intro q
    exact ⟨0, by simp⟩
  · have hd : discoverStories sc o urls ms
        = pyTake ms (pySortDesc scoreKey (validStories sc o urls)) := by
      simp [discoverStories, hmock, hne]
    refine ⟨?_, ?_, ?_, ?_⟩
    · intro s hs
      rw [hd, pyTake_of_nonneg hms] at hs
      have hs2 : s ∈ pySortDesc scoreKey (validStories sc o urls) :=
        List.take_subset _ _ hs
      exact processResults_mem (mem_pySortDesc.mp hs2)
    · rw [hd, pyTake_of_nonneg hms]
      exact (@pairwise_pySortDesc Story scoreKey
        (validStories sc o urls)).sublist (List.take_sublist _ _)
    · rw [hd]
      exact length_pyTake_le hms _
    · intro q
      rw [hd, pyTake_of_nonneg hms]
      rcases filter_take_eq_take_filter (fun s => decide (scoreKey s = q))
        ms.toNat (pySortDesc scoreKey (validStories sc o urls)) with ⟨m, hm⟩
      exact ⟨m, by rw [hm, filter_pySortDesc]⟩

theorem C2_pipeline_amended_witness :
    mockHit urlsThree = false ∧ (0 : ℤ) ≤ 2 ∧
    ((∀ s ∈ discoverStories scByUrl oracleEcho urlsThree 2,
        ∃ q, s.relevanceScore = some q ∧ 1/2 < q) ∧
     (discoverStories scByUrl oracleEcho urlsThree 2).Pairwise
       (fun a b => scoreKey b ≤ scoreKey a) ∧
     ((discoverStories scByUrl oracleEcho urlsThree 2).length : ℤ) ≤ 2 ∧
     (∀ q : ℚ, ∃ m,
       (discoverStories scByUrl oracleEcho urlsThree 2).filter
           (fun s => decide (scoreKey s = q))
         = ((validStories scByUrl oracleEcho urlsThree).filter
             (fun s => decide (scoreKey s = q))).take m)) :=
  ⟨by decide, by decide,
   C2_pipeline_amended scByUrl oracleEcho urlsThree 2 (by decide) (by decide)⟩

/-- Claim C7 counterexample: the claimed formula is
`ceil(word_count/250)` (floored at 1), which at 300 words gives 2; the
code computes `max(1, word_count // 250)` with floor division, which at
300 words gives 1. -/
theorem C7_counterexample :
    (substackExtract noParse (some doc300)).map SubstackStory.wordCount
        = some 300 ∧
    (substackExtract noParse (some doc300)).map
        SubstackStory.readingTimeMinutes = some 1 ∧
    (substackExtract noParse (some doc300)).map
        SubstackStory.readingTimeMinutes ≠ some ((300 + 250 - 1) / 250) := by
  refine ⟨by decide, by decide, by decide⟩

/-- Claim C7 as amended: on every successful extraction, `word_count` is
the whitespace-split token count of the cleaned body text, and
`reading_time_minutes = max(1, word_count // 250)` with Python *floor*
division (not `ceil`); the two formulas agree on the quadruple
{1, 250, 500, 750} ↦ {1, 1, 2, 3}, which therefore still holds. -/
theorem C7_word_count_reading_time (parseIso : String → Option String)
    (d : SubstackDoc) (ps : List String) (h : d.bodyParagraphs = some ps) :
    ∃ st, substackExtract parseIso (some d) = some st ∧
      st.text = joinSp ((ps.filter (fun q => q ≠ "")).map cleanText) ∧
      st.wordCount = (pySplit st.text).length ∧
      st.readingTimeMinutes = max 1 (st.wordCount / 250) ∧
      (st.wordCount = 1 → st.readingTimeMinutes = 1) ∧
      (st.wordCount = 250 → st.readingTimeMinutes = 1) ∧
      (st.wordCount = 500 → st.readingTimeMinutes = 2) ∧
      (st.wordCount = 750 → st.readingTimeMinutes = 3) := by
  simp only [substackExtract, substackExtractCore, h, exceptToEmpty]
  refine ⟨_, rfl, rfl, rfl, rfl, ?_, ?_, ?_, ?_⟩ <;>
    (intro hw; dsimp only at hw ⊢; omega)

theorem C7_word_count_reading_time_witness :
    doc300.bodyParagraphs = some [wordsText 300] ∧
    (∃ st, substackExtract noParse (some doc300) = some st ∧
      st.text = joinSp (([wordsText 300].filter
        (fun q => q ≠ "")).map cleanText) ∧
      st.wordCount = (pySplit st.text).length ∧
      st.readingTimeMinutes = max 1 (st.wordCount / 250) ∧
      (st.wordCount = 1 → st.readingTimeMinutes = 1) ∧
      (st.wordCount = 250 → st.readingTimeMinutes = 1) ∧
      (st.wordCount = 500 → st.readingTimeMinutes = 2) ∧
      (st.wordCount = 750 → st.readingTimeMinutes = 3)) :=
  ⟨rfl, C7_word_count_reading_time noParse doc300 [wordsText 300] rfl⟩

/-- Claim C8 counterexample: on a Medium page with neither a title
container nor a body container, `MediumSpider.extract_story` does not
return the empty result: it returns a placeholder story with title
`'Untitled'` and empty text. -/
theorem C8_counterexample :
    mediumExtract (some ({} : MediumDoc)) ≠ none ∧
    mediumExtract (some ({} : MediumDoc))
      = some { url := "", title := "Untitled", text := "",
               author := "Unknown", publishedAt := none,
               platform := "Medium" } := by
  refine ⟨by decide, by decide⟩

/-- Claim C8 as amended: `SubstackSpider.extract_story` returns the empty
result when the body container is missing (the lookup on `None` raises
and the extractor's own catch converts it to `{}`), and both extractors
return empty on empty input and convert any caught exception to the empty
result; but `MediumSpider.extract_story` on a page with no title and no
body container returns a placeholder story (`'Untitled'`, empty text)
rather than the empty result. -/
theorem C8_missing_structure (p : String → Option String) (d : SubstackDoc)
    (d2 : MediumDoc) (h1 : d.bodyParagraphs = none)
    (h2 : d2.bodyParagraphs = none) (h3 : d2.titleText = none) :
    substackExtract p (some d) = none ∧
    (∃ st, mediumExtract (some d2) = some st
      ∧ st.title = "Untitled" ∧ st.text = "") ∧
    substackExtract p none = none ∧
    mediumExtract none = none ∧
    (∀ e : String,
      exceptToEmpty (Except.error e : Except String SubstackStory) = none) := by
  refine ⟨by simp [substackExtract, substackExtractCore, h1, exceptToEmpty],
    ?_, rfl, rfl, fun e => rfl⟩
  refine ⟨_, rfl, ?_, ?_⟩
  · simp [mediumExtract, mediumExtractCore, exceptToEmpty, h3]
  · simp only [mediumExtract, mediumExtractCore, exceptToEmpty, h2, joinSp]
    decide

theorem C8_missing_structure_witness :
    ({} : SubstackDoc).bodyParagraphs = none ∧
    ({} : MediumDoc).bodyParagraphs = none ∧
    ({} : MediumDoc).titleText = none ∧
    (substackExtract noParse (some ({} : SubstackDoc)) = none ∧
     (∃ st, mediumExtract (some ({} : MediumDoc)) = some st
       ∧ st.title = "Untitled" ∧ st.text = "") ∧
     substackExtract noParse none = none ∧
     mediumExtract none = none ∧
     (∀ e : String,
       exceptToEmpty (Except.error e : Except String SubstackStory) = none)) :=
  ⟨rfl, rfl, rfl, C8_missing_structure noParse {} {} rfl rfl rfl⟩

/-- Claim C10 counterexample: on a Substack page whose `time` element
carries an unparseable `datetime` attribute, the extracted story's
publish-time is the absent value `None`, not the current instant: the
code initialises `publication_date = None` and the failed parse leaves it
unchanged. -/
theorem C10_counterexample :
    badTimeDoc.timeDatetime = some ("not-a-timestamp") ∧
    noParse ("not-a-timestamp") = none ∧
    (substackExtract noParse (some badTimeDoc)).map SubstackStory.publishedAt
      = some none := by
  refine ⟨rfl, rfl, by decide⟩

/-- Claim C10 as amended: on every successful Substack extraction the
story's publish-time is exactly the parse result of the `time` element's
`datetime` attribute — `None` (absent), not the current instant, whenever
the attribute is missing or unparseable. -/
theorem C10_publish_time (p : String → Option String) (d : SubstackDoc)
    (ps : List String) (h : d.bodyParagraphs = some ps) :
    ∃ st, substackExtract p (some d) = some st ∧
      st.publishedAt = d.timeDatetime.bind p := by
  simp only [substackExtract, substackExtractCore, h, exceptToEmpty]
  exact ⟨_, rfl, rfl⟩

theorem C10_publish_time_witness :
    badTimeDoc.bodyParagraphs = some ["Some body text"] ∧
    (∃ st, substackExtract noParse (some badTimeDoc) = some st ∧
      st.publishedAt = badTimeDoc.timeDatetime.bind noParse) :=
  ⟨rfl, C10_publish_time noParse badTimeDoc ["Some body text"] rfl⟩
